import Mathlib

/-!
Shallow embedding of the procedural mesh synthesizer and binary container
encoder of `src/lib/image-to-3d-service.ts`, together with the format
conversion wrapper of `src/lib/model-format-converter.ts`.

Numeric conventions: byte values and counts are `Nat`; color components are
modelled as `ℚ` (the code only copies sampled color values into buffers, it
performs no floating-point arithmetic on them); the IEEE-754 little-endian
encoding is spelled out only for the values `-1`, `0`, `1`, which are the only
float values occurring in the fixed cube tables.
-/

set_option maxRecDepth 8000

namespace Dimensionally

/-- An RGB color triple as sampled from one input image (components in [0,1]). -/
structure RGB where
  r : ℚ
  g : ℚ
  b : ℚ
deriving DecidableEq, Repr

/-- An RGBA color tuple as stored in the per-vertex color buffer. -/
structure RGBA where
  r : ℚ
  g : ℚ
  b : ℚ
  a : ℚ
deriving DecidableEq, Repr

/-- `createPhotogrammetryModel`: `subdivisions = Math.min(8, 2 + Math.floor(imageCount / 5))`. -/
def subdivisionsOf (imageCount : Nat) : Nat := min 8 (2 + imageCount / 5)

/-- `generateUVSphere`: `const rings = subdivisions`. -/
def rings (subdivisions : Nat) : Nat := subdivisions

/-- `generateUVSphere`: `const sectors = subdivisions * 2`. -/
def sectors (subdivisions : Nat) : Nat := subdivisions * 2

/-- `generateUVSphere`, first nested loop: one vertex (and one normal) is pushed
for every pair `(i, j)` with `0 ≤ i ≤ rings`, `0 ≤ j ≤ sectors`.  The positions
themselves are trigonometric floats whose values no claim depends on, so the
embedding records the loop structure. -/
def sphereVertexPairs (s : Nat) : List (Nat × Nat) :=
  (List.range (rings s + 1)).flatMap fun i =>
    (List.range (sectors s + 1)).map fun j => (i, j)

/-- Number of vertices produced by `generateUVSphere` (the `vertices` array
holds three floats per vertex). -/
def sphereVertexCount (s : Nat) : Nat := (sphereVertexPairs s).length

/-- `vertices.length` in the source: three floats pushed per vertex. -/
def sphereVertexFloatCount (s : Nat) : Nat := 3 * sphereVertexCount s

/-- `normals.length` in the source: three floats pushed per vertex, in the same
loop as the positions. -/
def sphereNormalFloatCount (s : Nat) : Nat := 3 * sphereVertexCount s

/-- `generateUVSphere`, second nested loop.  With `k1 = i*(sectors+1) + j` and
`k2 = k1 + sectors + 1`: for `i ≠ 0` push `k1, k2, k1+1`; for `i ≠ rings-1`
push `k1+1, k2, k2+1`. -/
def sphereIndices (s : Nat) : List Nat :=
  (List.range (rings s)).flatMap fun i =>
    (List.range (sectors s)).flatMap fun j =>
      let k1 := i * (sectors s + 1) + j
      let k2 := k1 + sectors s + 1
      (if i ≠ 0 then [k1, k2, k1 + 1] else []) ++
        (if i ≠ rings s - 1 then [k1 + 1, k2, k2 + 1] else [])

/-- `generateVertexColors(vertexCount, imageColors)`: vertex `i` receives
`imageColors[i % imageColors.length] || [0.8, 0.8, 0.8]` with alpha `1.0`.
(For an empty list the JS index is `NaN`, the lookup yields `undefined`, and
the default triple is used — modelled by `List.getD`, which returns the
default on any out-of-range index.) -/
def generateVertexColors (vertexCount : Nat) (imageColors : List RGB) : List RGBA :=
  (List.range vertexCount).map fun i =>
    ⟨(imageColors.getD (i % imageColors.length) ⟨0.8, 0.8, 0.8⟩).r,
     (imageColors.getD (i % imageColors.length) ⟨0.8, 0.8, 0.8⟩).g,
     (imageColors.getD (i % imageColors.length) ⟨0.8, 0.8, 0.8⟩).b, 1⟩

/-! ## Byte-level encoding (`createPhotogrammetryModel` / `createCubeGLB`) -/

/-- Little-endian byte list written by `DataView.setUint32(… , true)`. -/
def u32le (n : Nat) : List Nat :=
  [n % 256, n / 256 % 256, n / 65536 % 256, n / 16777216 % 256]

/-- Little-endian byte pair of one `Uint16Array` element. -/
def u16le (n : Nat) : List Nat := [n % 256, n / 256 % 256]

/-- IEEE-754 single-precision little-endian bytes for the three float values
`-1`, `0`, `1` — the only values occurring in the fixed cube tables
(`Float32Array` spells them `0x3f800000`, `0`, `0xbf800000`). -/
def f32le (v : Int) : List Nat :=
  if v = 1 then [0x00, 0x00, 0x80, 0x3f]
  else if v = -1 then [0x00, 0x00, 0x80, 0xbf]
  else [0x00, 0x00, 0x00, 0x00]

/-- Number of padding bytes appended to reach a 4-byte boundary:
`(4 - (len % 4)) % 4` in the source. -/
def pad4 (len : Nat) : Nat := (4 - len % 4) % 4

/-- The JSON chunk after padding: the serialized bytes followed by ASCII
spaces (`0x20`) up to a 4-byte boundary. -/
def padJson (jsonBuf : List Nat) : List Nat :=
  jsonBuf ++ List.replicate (pad4 jsonBuf.length) 0x20

/-- The binary chunk after padding: the packed bytes followed by zero bytes
up to a 4-byte boundary. -/
def padBin (binData : List Nat) : List Nat :=
  binData ++ List.replicate (pad4 binData.length) 0

/-- The file header as built by both encoders: a 20-byte `ArrayBuffer` of
which only three 4-byte fields are written (magic `0x46546c47`, version `2`,
total file length); bytes 12–19 keep the zero the buffer was initialized
with.  `fileLength = 20 + 8 + jsonChunk.length + 8 + binChunk.length`. -/
def glbHeader (fileLength : Nat) : List Nat :=
  u32le 0x46546c47 ++ u32le 2 ++ u32le fileLength ++ List.replicate 8 0

/-- Container assembly shared by `createPhotogrammetryModel` and
`createCubeGLB`: header, JSON chunk header (`length`, tag `0x4e4f534a`),
padded JSON, binary chunk header (`length`, tag `0x004e4942`), padded
binary. -/
def assembleGLB (jsonBuf binData : List Nat) : List Nat :=
  let jsonChunk := padJson jsonBuf
  let binChunk := padBin binData
  let fileLength := 20 + 8 + jsonChunk.length + 8 + binChunk.length
  glbHeader fileLength ++
    (u32le jsonChunk.length ++ u32le 0x4e4f534a) ++ jsonChunk ++
    (u32le binChunk.length ++ u32le 0x004e4942) ++ binChunk

/-! ## Scene-description metadata -/

/-- One entry of the glTF `accessors` array (the fields the claims refer to). -/
structure Accessor where
  bufferView : Nat
  componentType : Nat
  count : Nat
  type : String
deriving DecidableEq, Repr

/-- One entry of the glTF `bufferViews` array. -/
structure BufferView where
  byteOffset : Nat
  byteLength : Nat
  target : Nat
deriving DecidableEq, Repr

/-- Byte width of a glTF `componentType` code (5126 = FLOAT, 5125 =
UNSIGNED_INT, 5123 = UNSIGNED_SHORT). -/
def componentByteWidth (code : Nat) : Nat :=
  if code = 5126 then 4 else if code = 5125 then 4 else if code = 5123 then 2 else 0

/-- Element arity of a glTF accessor `type`. -/
def typeArity (t : String) : Nat :=
  if t = "SCALAR" then 1 else if t = "VEC3" then 3 else if t = "VEC4" then 4 else 0

/-- The number of bytes an accessor claims to describe:
`count × componentByteWidth × typeArity`. -/
def accessorByteSize (a : Accessor) : Nat :=
  a.count * componentByteWidth a.componentType * typeArity a.type

/-- The attribute streams handled by the two encoders. -/
inductive GLAttr
  | position
  | index
  | normal
  | color
deriving DecidableEq, Repr

/-- Byte offset at which a segment was actually packed: the sum of the
lengths of the segments written before it (`binData.set(…, offset)` with a
running `offset`). -/
def packedOffsetOf (segs : List (GLAttr × Nat)) (a : GLAttr) : Nat :=
  ((segs.takeWhile fun p => p.1 ≠ a).map Prod.snd).sum

/-! ## The fixed cube path (`createCubeGLB`) -/

/-- `createCubeGLB`: the 8-corner vertex table (24 floats, values ±1). -/
def cubeVertices : List Int :=
  [-1, -1, -1, 1, -1, -1, 1, 1, -1, -1, 1, -1,
   -1, -1, 1, 1, -1, 1, 1, 1, 1, -1, 1, 1]

/-- `createCubeGLB`: the 36-entry `Uint16Array` index table. -/
def cubeIndices : List Nat :=
  [0, 1, 2, 2, 3, 0, 5, 4, 7, 7, 6, 5, 4, 5, 1, 1, 0, 4,
   3, 2, 6, 6, 7, 3, 4, 0, 3, 3, 7, 4, 1, 5, 6, 6, 2, 1]

/-- `createCubeGLB`: the normals table exactly as written in the source — a
`Float32Array` literal with 71 entries. -/
def cubeNormals : List Int :=
  [0, 0, -1, 0, 0, -1, 0, 0, -1, 0, 0, -1, 0, 0, 1, 0, 0, 1, 0, 0, 1, 0, 0,
   1, 0, -1, 0, 0, -1, 0, 0, -1, 0, 0, -1, 0, 0, 1, 0, 0, 1, 0, 0, 1, 0, 0,
   1, 0, -1, 0, 0, -1, 0, 0, -1, 0, 0, -1, 0, 1, 0, 1, 0, 1, 0, 1, 0, 1, 0,
   1, 0]

/-- `new Uint8Array(vertices.buffer)`: 4 little-endian bytes per float. -/
def cubeVertexBin : List Nat := cubeVertices.flatMap f32le

/-- `new Uint8Array(indices.buffer)`: 2 little-endian bytes per `Uint16`. -/
def cubeIndicesBin : List Nat := cubeIndices.flatMap u16le

/-- `new Uint8Array(normals.buffer)`: 4 little-endian bytes per float. -/
def cubeNormalsBin : List Nat := cubeNormals.flatMap f32le

/-- `binData`: vertices, then indices, then normals, packed back-to-back
(`binData.set(vertexBin, 0)`, `set(indicesBin, vertexBin.length)`,
`set(normalsBin, vertexBin.length + indicesBin.length)`). -/
def cubeBinData : List Nat := cubeVertexBin ++ cubeIndicesBin ++ cubeNormalsBin

/-- The packing order of `createCubeGLB`'s binary buffer with segment
lengths, in the order of the `binData.set` calls. -/
def cubePackSegments : List (GLAttr × Nat) :=
  [(GLAttr.position, cubeVertexBin.length),
   (GLAttr.index, cubeIndicesBin.length),
   (GLAttr.normal, cubeNormalsBin.length)]

/-- `createCubeGLB`'s `accessors` array. -/
def cubeAccessors : List Accessor :=
  [⟨0, 5126, 8, "VEC3"⟩,
   ⟨1, 5125, 36, "SCALAR"⟩,
   ⟨2, 5126, 24, "VEC3"⟩]

/-- `createCubeGLB`'s `bufferViews` array. -/
def cubeBufferViews : List BufferView :=
  [⟨0, cubeVertexBin.length, 34962⟩,
   ⟨cubeVertexBin.length, cubeIndicesBin.length, 34963⟩,
   ⟨cubeVertexBin.length + cubeIndicesBin.length, cubeNormalsBin.length, 34962⟩]

/-- The attribute each of `createCubeGLB`'s buffer views describes, in view
order: view 0 is POSITION (accessor 0), view 1 the indices (accessor 1),
view 2 NORMAL (accessor 2). -/
def cubeViewAttrOrder : List GLAttr :=
  [GLAttr.position, GLAttr.index, GLAttr.normal]

/-- `JSON.stringify(glTF)` for the cube scene description: key order is the
insertion order in the source and numbers print the JavaScript way
(`1.0` as `1`). -/
def cubeJsonStr : String :=
  "\x7b\"asset\":\x7b\"version\":\"2.0\",\"generator\":\"Dimensionally\"\x7d,\"scene\":0,\"scenes\":[\x7b\"nodes\":[0]\x7d],\"nodes\":[\x7b\"mesh\":0\x7d],\"meshes\":[\x7b\"primitives\":[\x7b\"attributes\":\x7b\"POSITION\":0,\"NORMAL\":2\x7d,\"indices\":1,\"material\":0\x7d]\x7d],\"materials\":[\x7b\"name\":\"Material\",\"pbrMetallicRoughness\":\x7b\"baseColorFactor\":[0.8,0.8,0.8,1],\"metallicFactor\":0.5,\"roughnessFactor\":0.5\x7d\x7d],\"accessors\":[\x7b\"bufferView\":0,\"componentType\":5126,\"count\":8,\"type\":\"VEC3\",\"min\":[-1,-1,-1],\"max\":[1,1,1]\x7d,\x7b\"bufferView\":1,\"componentType\":5125,\"count\":36,\"type\":\"SCALAR\"\x7d,\x7b\"bufferView\":2,\"componentType\":5126,\"count\":24,\"type\":\"VEC3\"\x7d],\"bufferViews\":[\x7b\"buffer\":0,\"byteOffset\":0,\"byteLength\":96,\"target\":34962\x7d,\x7b\"buffer\":0,\"byteOffset\":96,\"byteLength\":72,\"target\":34963\x7d,\x7b\"buffer\":0,\"byteOffset\":168,\"byteLength\":284,\"target\":34962\x7d],\"buffers\":[\x7b\"byteLength\":452\x7d]\x7d"

/-- `new TextEncoder().encode(jsonStr)`: the JSON text is pure ASCII, so the
UTF-8 bytes are the character codes. -/
def cubeJsonBytes : List Nat := cubeJsonStr.data.map Char.toNat

/-- The complete byte output of `createCubeGLB()`. -/
def cubeGLB : List Nat := assembleGLB cubeJsonBytes cubeBinData

/-! ## The sphere path (`createPhotogrammetryModel`) binary layout -/

/-- `vertexColors = generateVertexColors(vertices.length, colors)`: the
source passes the *float* count of the vertex array (3 per vertex), so the
color array holds `vertices.length` RGBA tuples, i.e. `4 × vertices.length`
floats. -/
def sphereColorFloatCount (s : Nat) : Nat := 4 * sphereVertexFloatCount s

/-- `vertexBin.length`: 4 bytes per float of the position array. -/
def sphereVertexBinLen (s : Nat) : Nat := 4 * sphereVertexFloatCount s

/-- `indicesBin.length`: 4 bytes per `Uint32` index. -/
def sphereIndicesBinLen (s : Nat) : Nat := 4 * (sphereIndices s).length

/-- `normalsBin.length`: 4 bytes per float of the normal array. -/
def sphereNormalsBinLen (s : Nat) : Nat := 4 * sphereNormalFloatCount s

/-- `colorBin.length`: 4 bytes per float of the color array. -/
def sphereColorBinLen (s : Nat) : Nat := 4 * sphereColorFloatCount s

/-- `binDataLength = vertexBin.length + indicesBin.length + normalsBin.length
+ colorBin.length`. -/
def sphereBinDataLen (s : Nat) : Nat :=
  sphereVertexBinLen s + sphereIndicesBinLen s + sphereNormalsBinLen s + sphereColorBinLen s

/-- The packing order of `createPhotogrammetryModel`'s binary buffer with
segment lengths, in the order of the `binData.set` calls: vertices, then
indices, then normals, then colors. -/
def spherePackSegments (s : Nat) : List (GLAttr × Nat) :=
  [(GLAttr.position, sphereVertexBinLen s),
   (GLAttr.index, sphereIndicesBinLen s),
   (GLAttr.normal, sphereNormalsBinLen s),
   (GLAttr.color, sphereColorBinLen s)]

/-- `createPhotogrammetryModel`'s `accessors` array: counts are
`vertices.length / 3`, `normals.length / 3`, `vertexColors.length / 4`,
`indices.length`. -/
def sphereAccessors (s : Nat) : List Accessor :=
  [⟨0, 5126, sphereVertexFloatCount s / 3, "VEC3"⟩,
   ⟨1, 5126, sphereNormalFloatCount s / 3, "VEC3"⟩,
   ⟨2, 5126, sphereColorFloatCount s / 4, "VEC4"⟩,
   ⟨3, 5125, (sphereIndices s).length, "SCALAR"⟩]

/-- `createPhotogrammetryModel`'s `bufferViews` array: view 0 at offset 0
with the vertex length, view 1 at `vertexBin.length` with the normals
length, view 2 at `vertexBin.length + normalsBin.length` with the color
length, view 3 after that with the index length. -/
def sphereBufferViews (s : Nat) : List BufferView :=
  [⟨0, sphereVertexBinLen s, 34962⟩,
   ⟨sphereVertexBinLen s, sphereNormalsBinLen s, 34962⟩,
   ⟨sphereVertexBinLen s + sphereNormalsBinLen s, sphereColorBinLen s, 34962⟩,
   ⟨sphereVertexBinLen s + sphereNormalsBinLen s + sphereColorBinLen s,
     sphereIndicesBinLen s, 34963⟩]

/-- The attribute each of `createPhotogrammetryModel`'s buffer views
describes, in view order (accessor `k` references buffer view `k`; the
primitive maps POSITION → 0, NORMAL → 1, COLOR_0 → 2, indices → 3). -/
def sphereViewAttrOrder : List GLAttr :=
  [GLAttr.position, GLAttr.normal, GLAttr.color, GLAttr.index]

/-- `JSON.stringify(glTF)` for the sphere scene description: a fixed
template with the accessor counts and buffer-view offsets/lengths printed
in decimal. -/
def sphereJsonStr (s : Nat) : String :=
  "\x7b\"asset\":\x7b\"version\":\"2.0\",\"generator\":\"Dimensionally Photogrammetry\"\x7d,\"scene\":0,\"scenes\":[\x7b\"nodes\":[0]\x7d],\"nodes\":[\x7b\"mesh\":0\x7d],\"meshes\":[\x7b\"primitives\":[\x7b\"attributes\":\x7b\"POSITION\":0,\"NORMAL\":1,\"COLOR_0\":2\x7d,\"indices\":3,\"material\":0\x7d]\x7d],\"materials\":[\x7b\"name\":\"Material\",\"pbrMetallicRoughness\":\x7b\"baseColorFactor\":[1,1,1,1],\"metallicFactor\":0.3,\"roughnessFactor\":0.7\x7d\x7d],\"accessors\":[\x7b\"bufferView\":0,\"componentType\":5126,\"count\":" ++
  toString (sphereVertexFloatCount s / 3) ++
  ",\"type\":\"VEC3\",\"min\":[-1,-1,-1],\"max\":[1,1,1]\x7d,\x7b\"bufferView\":1,\"componentType\":5126,\"count\":" ++
  toString (sphereNormalFloatCount s / 3) ++
  ",\"type\":\"VEC3\"\x7d,\x7b\"bufferView\":2,\"componentType\":5126,\"count\":" ++
  toString (sphereColorFloatCount s / 4) ++
  ",\"type\":\"VEC4\"\x7d,\x7b\"bufferView\":3,\"componentType\":5125,\"count\":" ++
  toString (sphereIndices s).length ++
  ",\"type\":\"SCALAR\"\x7d],\"bufferViews\":[\x7b\"buffer\":0,\"byteOffset\":0,\"byteLength\":" ++
  toString (sphereVertexBinLen s) ++
  ",\"target\":34962\x7d,\x7b\"buffer\":0,\"byteOffset\":" ++
  toString (sphereVertexBinLen s) ++
  ",\"byteLength\":" ++
  toString (sphereNormalsBinLen s) ++
  ",\"target\":34962\x7d,\x7b\"buffer\":0,\"byteOffset\":" ++
  toString (sphereVertexBinLen s + sphereNormalsBinLen s) ++
  ",\"byteLength\":" ++
  toString (sphereColorBinLen s) ++
  ",\"target\":34962\x7d,\x7b\"buffer\":0,\"byteOffset\":" ++
  toString (sphereVertexBinLen s + sphereNormalsBinLen s + sphereColorBinLen s) ++
  ",\"byteLength\":" ++
  toString (sphereIndicesBinLen s) ++
  ",\"target\":34963\x7d],\"buffers\":[\x7b\"byteLength\":" ++
  toString (sphereBinDataLen s) ++
  "\x7d]\x7d"

/-- UTF-8 bytes of the sphere JSON text (pure ASCII). -/
def sphereJsonBytes (s : Nat) : List Nat := (sphereJsonStr s).data.map Char.toNat

/-- Total byte length of the container built by
`createPhotogrammetryModel(colors, imageCount)`.  The position/normal floats
are trigonometric values whose bit patterns no claim depends on, so the
embedding of this function tracks the container's layout and byte count:
`fileLength = 20 + 8 + paddedJson + 8 + paddedBin`, exactly the length of
`assembleGLB` applied to the serialized JSON and the packed binary data. -/
def createPhotogrammetryModelLength (_colors : List RGB) (imageCount : Nat) : Nat :=
  let s := subdivisionsOf imageCount
  20 + 8 + (padJson (sphereJsonBytes s)).length + 8 +
    (sphereBinDataLen s + pad4 (sphereBinDataLen s))

/-! ## The conversion service (`convertPhotogrammetry`,
`generateModelFromPhotogrammetry`, `exportSceneToFormat`) -/

/-- The output formats of `model-format-converter.ts`. -/
inductive ModelFormat
  | GLB
  | GLTF
  | OBJ
  | STL
  | FBX
  | USDZ
  | DAE
deriving DecidableEq, Repr

/-- `generateModelFromPhotogrammetry(files, format, options)` after the
colors have been extracted: it computes `createPhotogrammetryModel(colors,
files.length)` into a local (`glbArrayBuffer`) that is never used again, and
returns `exportSceneToFormat(format, options)` — modelled by an abstract
`exportScene` function of the format alone, since `exportSceneToFormat`
builds a constant cube scene and delegates to the three.js exporters without
ever seeing the input images. -/
def generateModelFromPhotogrammetry (exportScene : ModelFormat → List Nat)
    (colors : List RGB) (fileCount : Nat) (format : ModelFormat) : List Nat :=
  let _glbArrayBuffer := createPhotogrammetryModelLength colors fileCount
  exportScene format

/-- Progress values delivered by `exportSceneToFormat` (it emits `50` after
creating the cube scene). -/
def exportSceneToFormatProgress : List Nat := [50]

/-- Progress values delivered by `generateModelFromPhotogrammetry`: 50, 70,
85, then whatever `exportSceneToFormat` emits, then 100. -/
def generateModelFromPhotogrammetryProgress : List Nat :=
  [50, 70, 85] ++ exportSceneToFormatProgress ++ [100]

/-- Progress values delivered over a whole `convertPhotogrammetry` call:
10 before validation; 20 after it; 40 only when the normalized format is
supported; then the generation stage.  Validation failure throws right after
the initial 10. -/
def convertPhotogrammetryProgress (fileCount : Nat) (allImages : Bool)
    (formatSupported : Bool) : List Nat :=
  [10] ++
    if fileCount < 8 then []
    else if !allImages then []
    else [20] ++
      (if formatSupported then [40] ++ generateModelFromPhotogrammetryProgress
       else generateModelFromPhotogrammetryProgress)

/-- An uploaded file as far as validation looks at it. -/
structure JsFile where
  type : String
deriving DecidableEq, Repr

/-- `supportedFormats` in `convertPhotogrammetry`. -/
def supportedFormats : List String :=
  ["GLB", "GLTF", "OBJ", "STL", "FBX", "USDZ", "DAE"]

/-- `convertPhotogrammetry(files, outputFormat, options)`: validation, format
normalization and dispatch to the generation pipeline (abstracted as
`pipeline`), with the `catch` block prefixing every thrown message with
`"Photogrammetry conversion failed: "`. -/
def convertPhotogrammetry (pipeline : List JsFile → String → List Nat)
    (files : List JsFile) (outputFormat : String) : Except String (List Nat) :=
  if files.length < 8 then
    Except.error ("Photogrammetry conversion failed: " ++
      "Please provide at least 8 images for photogrammetry")
  else if !(files.all fun f => f.type.startsWith "image/") then
    Except.error ("Photogrammetry conversion failed: " ++
      "All files must be valid image files")
  else
    let normalizedFormat := outputFormat.toUpper
    if supportedFormats.contains normalizedFormat then
      Except.ok (pipeline files normalizedFormat)
    else
      Except.ok (pipeline files "GLB")

/-! ## Theorems -/

/-- `List.getD` does not depend on the default when the index is in range. -/
theorem getD_default_irrel (l : List RGB) (i : Nat) (h : i < l.length) (d₁ d₂ : RGB) :
    l.getD i d₁ = l.getD i d₂ := by
  rw [List.getD_eq_getElem _ _ h, List.getD_eq_getElem _ _ h]

/-- C7: for every subdivisions parameter in [2,8] (with `rings = subdivisions`
and `sectors = 2 × subdivisions`) the sphere generator produces exactly
`(rings+1)×(sectors+1)` vertices and a strictly positive, even number of
triangle indices, each strictly below the vertex count; an input count of 25
yields subdivisions 7, rings 7, sectors 14 and 120 vertices. -/
theorem sphere_generator_safe (s : Nat) (h2 : 2 ≤ s) (h8 : s ≤ 8) :
    sphereVertexCount s = (rings s + 1) * (sectors s + 1) ∧
    0 < (sphereIndices s).length ∧
    (sphereIndices s).length % 2 = 0 ∧
    ((sphereIndices s).all fun k => k < sphereVertexCount s) = true ∧
    (subdivisionsOf 25 = 7 ∧ rings 7 = 7 ∧ sectors 7 = 14 ∧ sphereVertexCount 7 = 120) := by
  interval_cases s <;> decide

/-- Witness for `sphere_generator_safe` at the spec's concrete scenario
(subdivisions 7, from input count 25). -/
theorem sphere_generator_safe_witness :
    2 ≤ 7 ∧ 7 ≤ 8 ∧
    (sphereVertexCount 7 = (rings 7 + 1) * (sectors 7 + 1) ∧
      0 < (sphereIndices 7).length ∧
      (sphereIndices 7).length % 2 = 0 ∧
      ((sphereIndices 7).all fun k => k < sphereVertexCount 7) = true ∧
      (subdivisionsOf 25 = 7 ∧ rings 7 = 7 ∧ sectors 7 = 14 ∧ sphereVertexCount 7 = 120)) :=
  ⟨by decide, by decide, sphere_generator_safe 7 (by decide) (by decide)⟩

/-- C8: the colorizer returns one RGBA tuple per requested vertex; with a
non-empty color list, tuple `i` is the color at index `i mod colorCount` with
alpha exactly 1; with an empty list every tuple is `(0.8, 0.8, 0.8, 1.0)`. -/
theorem generateVertexColors_spec (n : Nat) (colors : List RGB) :
    (generateVertexColors n colors).length = n ∧
    (colors ≠ [] → ∀ i, i < n →
      (generateVertexColors n colors).getD i ⟨0, 0, 0, 0⟩ =
        ⟨(colors.getD (i % colors.length) ⟨0, 0, 0⟩).r,
         (colors.getD (i % colors.length) ⟨0, 0, 0⟩).g,
         (colors.getD (i % colors.length) ⟨0, 0, 0⟩).b, 1⟩) ∧
    (colors = [] → ∀ i, i < n →
      (generateVertexColors n colors).getD i ⟨0, 0, 0, 0⟩ = ⟨0.8, 0.8, 0.8, 1⟩) := by
  refine ⟨by simp [generateVertexColors], ?_, ?_⟩
  · intro hne i hi
    have hm : i % colors.length < colors.length :=
      Nat.mod_lt _ (List.length_pos.mpr hne)
    unfold generateVertexColors
    rw [List.getD_eq_getElem _ _ (by simpa using hi)]
    simp only [List.getElem_map, List.getElem_range]
    rw [getD_default_irrel colors (i % colors.length) hm ⟨0.8, 0.8, 0.8⟩ ⟨0, 0, 0⟩]
  · intro he i hi
    subst he
    unfold generateVertexColors
    rw [List.getD_eq_getElem _ _ (by simpa using hi)]
    simp only [List.getElem_map, List.getElem_range]
    rfl

/-- Witness for `generateVertexColors_spec`: a non-empty two-color list
cycles (vertex 3 gets color 3 mod 2 = 1) and the empty list yields the gray
default. -/
theorem generateVertexColors_spec_witness :
    (generateVertexColors 5 [⟨1, 0, 0⟩, ⟨0, 1, 0⟩]).getD 3 ⟨0, 0, 0, 0⟩ = ⟨0, 1, 0, 1⟩ ∧
    (generateVertexColors 2 []).getD 1 ⟨0, 0, 0, 0⟩ = ⟨0.8, 0.8, 0.8, 1⟩ := by
  constructor
  · exact ((generateVertexColors_spec 5 [⟨1, 0, 0⟩, ⟨0, 1, 0⟩]).2.1
      (List.cons_ne_nil _ _) 3 (by decide)).trans (by rfl)
  · exact (generateVertexColors_spec 2 []).2.2 rfl 1 (by decide)

/-- C6: over a valid conversion (≥ 8 image files, supported format) the
callback receives `10, 20, 40, 50, 70, 85, 50, 100` — every value is within
[0, 100] (they are naturals ≤ 100), but the sequence is **not** monotonically
increasing: the export stage re-emits 50 after 85. -/
theorem progress_not_monotone :
    convertPhotogrammetryProgress 8 true true = [10, 20, 40, 50, 70, 85, 50, 100] ∧
    (convertPhotogrammetryProgress 8 true true).all (fun p => p ≤ 100) = true ∧
    ¬ List.Sorted (· ≤ ·) (convertPhotogrammetryProgress 8 true true) := by
  refine ⟨by rfl, by rfl, ?_⟩
  decide

/-- C4: in the sphere path the POSITION and NORMAL accessors declare the
vertex count (28 for subdivisions 3, i.e. an 8-image request) but the
COLOR_0 accessor declares three times as many tuples, because
`generateVertexColors` is called with `vertices.length` (the float count)
instead of the vertex count. -/
theorem sphere_color_count_mismatch :
    subdivisionsOf 8 = 3 ∧
    ((sphereAccessors 3).getD 0 ⟨0, 0, 0, ""⟩).count = 28 ∧
    ((sphereAccessors 3).getD 1 ⟨0, 0, 0, ""⟩).count = 28 ∧
    ((sphereAccessors 3).getD 2 ⟨0, 0, 0, ""⟩).count = 84 ∧
    sphereVertexCount 3 = 28 ∧
    (84 : Nat) = 3 * 28 ∧ (84 : Nat) ≠ 28 := by
  decide

/-- C2: in the sphere path the binary buffer is packed position, index,
normal, color, while the scene description references the views in order
position, normal, color, index; concretely (subdivisions 3) the NORMAL view
declares byte offset 336 but the normal bytes were packed at offset 624, so
the declared range holds index data.  The cube path's packing order does
match its view order. -/
theorem sphere_packing_order_mismatch :
    (spherePackSegments 3).map Prod.fst =
      [GLAttr.position, GLAttr.index, GLAttr.normal, GLAttr.color] ∧
    (spherePackSegments 3).map Prod.fst ≠ sphereViewAttrOrder ∧
    ((sphereBufferViews 3).getD 1 ⟨0, 0, 0⟩).byteOffset = 336 ∧
    packedOffsetOf (spherePackSegments 3) GLAttr.normal = 624 ∧
    (336 : Nat) ≠ 624 ∧
    cubePackSegments.map Prod.fst = cubeViewAttrOrder ∧
    subdivisionsOf 8 = 3 := by
  decide

/-- C3: in the cube path the index accessor declares componentType 5125
(UNSIGNED_INT, 4 bytes) over a `Uint16Array`, so its declared byte size
36 × 4 × 1 = 144 differs from its buffer view's 72 bytes (and 5125 ≠ 5123,
the 16-bit code the data would require); the NORMAL accessor declares
24 × 4 × 3 = 288 bytes over a 284-byte view (the source's normals literal
has 71 floats). -/
theorem cube_accessor_byte_size_mismatch :
    ((cubeAccessors.getD 1 ⟨0, 0, 0, ""⟩).componentType = 5125 ∧
      componentByteWidth 5125 = 4 ∧ componentByteWidth 5123 = 2) ∧
    accessorByteSize (cubeAccessors.getD 1 ⟨0, 0, 0, ""⟩) = 144 ∧
    (cubeBufferViews.getD 1 ⟨0, 0, 0⟩).byteLength = 72 ∧
    (144 : Nat) ≠ 72 ∧
    accessorByteSize (cubeAccessors.getD 2 ⟨0, 0, 0, ""⟩) = 288 ∧
    (cubeBufferViews.getD 2 ⟨0, 0, 0⟩).byteLength = 284 ∧
    cubeNormals.length = 71 := by
  decide

/-- The container's total length is header + two chunk headers + the two
padded chunks. -/
theorem assembleGLB_length (jsonBuf binData : List Nat) :
    (assembleGLB jsonBuf binData).length =
      20 + 8 + (padJson jsonBuf).length + 8 + (padBin binData).length := by
  simp [assembleGLB, glbHeader, u32le, List.length_append]
  omega

/-- C5: the produced container does **not** start with a 12-byte header: the
source allocates a 20-byte header buffer and writes only three fields, so in
the cube container bytes 12–19 are zero filler, the declared total length is
`20 + 8 + paddedJson + 8 + paddedBin` (not `12 + …`), and the JSON chunk
length sits at byte offset 20, not 12. -/
theorem cube_container_header_defect :
    cubeGLB.length = 1292 ∧
    cubeGLB.take 12 = u32le 0x46546c47 ++ u32le 2 ++ u32le 1292 ∧
    (cubeGLB.drop 12).take 8 = [0, 0, 0, 0, 0, 0, 0, 0] ∧
    (padJson cubeJsonBytes).length = 804 ∧
    (padBin cubeBinData).length = 452 ∧
    (cubeGLB.drop 20).take 4 = u32le 804 ∧
    (1292 : Nat) = 20 + 8 + 804 + 8 + 452 ∧
    (1292 : Nat) ≠ 12 + 8 + 804 + 8 + 452 ∧
    (cubeGLB.drop 12).take 4 ≠ u32le 804 := by
  refine ⟨by rfl, by rfl, by rfl, by rfl, by rfl, by rfl, by rfl, by decide, by decide⟩

/-- C9: both chunks are padded to 4-byte multiples, with ASCII space (0x20)
padding for the JSON chunk and zero padding for the binary chunk; buffer-view
lengths count only the unpadded attribute bytes (they sum to the unpadded
binary length and every view ends within it), in both paths. -/
theorem chunk_padding_discipline (jsonBuf binData : List Nat) :
    (padJson jsonBuf).length % 4 = 0 ∧
    (padBin binData).length % 4 = 0 ∧
    (padJson jsonBuf).drop jsonBuf.length = List.replicate (pad4 jsonBuf.length) 0x20 ∧
    (padBin binData).drop binData.length = List.replicate (pad4 binData.length) 0 ∧
    (∀ s : Nat, ((sphereBufferViews s).map BufferView.byteLength).sum = sphereBinDataLen s) ∧
    (cubeBufferViews.map BufferView.byteLength).sum = cubeBinData.length ∧
    (∀ s : Nat, ((sphereBufferViews s).all fun v =>
        v.byteOffset + v.byteLength ≤ sphereBinDataLen s) = true) ∧
    (cubeBufferViews.all fun v => v.byteOffset + v.byteLength ≤ cubeBinData.length) = true := by
  refine ⟨?_, ?_, ?_, ?_, ?_, by decide, ?_, by decide⟩
  · simp only [padJson, pad4, List.length_append, List.length_replicate]
    omega
  · simp only [padBin, pad4, List.length_append, List.length_replicate]
    omega
  · exact List.drop_left jsonBuf (List.replicate (pad4 jsonBuf.length) 0x20)
  · exact List.drop_left binData (List.replicate (pad4 binData.length) 0)
  · intro s
    simp only [sphereBufferViews, sphereBinDataLen, List.map_cons, List.map_nil,
      List.sum_cons, List.sum_nil]
    omega
  · intro s
    simp only [sphereBufferViews, sphereBinDataLen, List.all_cons, List.all_nil,
      Bool.and_eq_true, decide_eq_true_eq, and_true]
    omega

/-- C10: with fewer than 8 files, or any file whose MIME type does not start
with `image/`, `convertPhotogrammetry` returns an error whose message is
prefixed `"Photogrammetry conversion failed: "`, and the generation pipeline
is never consulted (the result is the same for any pipeline). -/
theorem convertPhotogrammetry_rejects_invalid
    (g₁ g₂ : List JsFile → String → List Nat) (files : List JsFile) (fmt : String)
    (h : files.length < 8 ∨ (files.all fun f => f.type.startsWith "image/") = false) :
    convertPhotogrammetry g₁ files fmt = convertPhotogrammetry g₂ files fmt ∧
    ∃ rest, convertPhotogrammetry g₁ files fmt =
      Except.error ("Photogrammetry conversion failed: " ++ rest) := by
  by_cases h8 : files.length < 8
  · refine ⟨by simp [convertPhotogrammetry, h8], ?_⟩
    exact ⟨"Please provide at least 8 images for photogrammetry",
      by simp [convertPhotogrammetry, h8]⟩
  · have hall : (files.all fun f => f.type.startsWith "image/") = false := by
      rcases h with h | h
      · exact absurd h h8
      · exact h
    refine ⟨by simp [convertPhotogrammetry, h8, hall], ?_⟩
    exact ⟨"All files must be valid image files",
      by simp [convertPhotogrammetry, h8, hall]⟩

/-- Witness for `convertPhotogrammetry_rejects_invalid`: the empty upload
list (0 < 8 files) is rejected with the documented prefix, whatever the
pipeline would have produced. -/
theorem convertPhotogrammetry_rejects_invalid_witness :
    (([] : List JsFile).length < 8 ∨
      (([] : List JsFile).all fun f => f.type.startsWith "image/") = false) ∧
    (convertPhotogrammetry (fun _ _ => []) [] "GLB" =
        convertPhotogrammetry (fun _ _ => [1]) [] "GLB" ∧
      ∃ rest, convertPhotogrammetry (fun _ _ => []) [] "GLB" =
        Except.error ("Photogrammetry conversion failed: " ++ rest)) :=
  ⟨Or.inl (by decide),
    convertPhotogrammetry_rejects_invalid (fun _ _ => []) (fun _ _ => [1]) [] "GLB"
      (Or.inl (by decide))⟩

/-- Padding adds `pad4` bytes to the JSON chunk. -/
theorem padJson_length (jsonBuf : List Nat) :
    (padJson jsonBuf).length = jsonBuf.length + pad4 jsonBuf.length := by
  simp [padJson]

/-- The serialized JSON byte count equals the (ASCII) string length. -/
theorem sphereJsonBytes_length (s : Nat) :
    (sphereJsonBytes s).length = (sphereJsonStr s).length :=
  List.length_map _ _

/-- The container length of the sphere path, in terms of the JSON text length
and the packed binary length. -/
theorem createPhotogrammetryModelLength_eq (colors : List RGB) (n : Nat) :
    createPhotogrammetryModelLength colors n =
      20 + 8 + ((sphereJsonStr (subdivisionsOf n)).length +
        pad4 (sphereJsonStr (subdivisionsOf n)).length) + 8 +
      (sphereBinDataLen (subdivisionsOf n) + pad4 (sphereBinDataLen (subdivisionsOf n))) := by
  show 20 + 8 + (padJson (sphereJsonBytes (subdivisionsOf n))).length + 8 +
      (sphereBinDataLen (subdivisionsOf n) + pad4 (sphereBinDataLen (subdivisionsOf n))) = _
  rw [padJson_length, sphereJsonBytes_length]

/-- C1: the bytes returned by `generateModelFromPhotogrammetry` are **not**
the pipeline's assembled container: the locally computed photogrammetry model
is discarded and the export of a constant cube scene is returned, so the
result is identical for any two inputs — while the pipeline's container for
8 images (3300 bytes) differs from the one for 25 images (11660 bytes). -/
theorem generateModel_discards_pipeline :
    (∀ (exportScene : ModelFormat → List Nat) (colors₁ colors₂ : List RGB)
        (n₁ n₂ : Nat) (fmt : ModelFormat),
      generateModelFromPhotogrammetry exportScene colors₁ n₁ fmt =
        generateModelFromPhotogrammetry exportScene colors₂ n₂ fmt) ∧
    createPhotogrammetryModelLength [] 8 = 3300 ∧
    createPhotogrammetryModelLength [] 25 = 11660 ∧
    (3300 : Nat) ≠ 11660 := by
  refine ⟨fun _ _ _ _ _ _ => rfl, ?_, ?_, by decide⟩
  · rw [createPhotogrammetryModelLength_eq, show subdivisionsOf 8 = 3 by decide,
      show (sphereJsonStr 3).length = 957 from rfl,
      show sphereBinDataLen 3 = 2304 by decide]
    decide
  · rw [createPhotogrammetryModelLength_eq, show subdivisionsOf 25 = 7 by decide,
      show (sphereJsonStr 7).length = 967 from rfl,
      show sphereBinDataLen 7 = 10656 by decide]
    decide

end Dimensionally
